import Mathlib

/-!
Verification development for the edge-orchestrator pipeline engine.

The Python sources are shallowly embedded: every mutable object becomes an
explicit state value, every method becomes a function returning the updated
state together with an `Except`-style outcome (Python exceptions are the
`.error` branch), and wall-clock timestamps become an abstract `Nat`
parameter supplied by the caller.
-/

namespace EdgeOrch

/-- Kinds of Python exceptions raised by the embedded code paths. -/
inductive PyErr
  | valueError
  | keyError
  | indexError
  | typeError
  | attributeError
  deriving DecidableEq, Repr

/-- Untyped Python values as they flow through resource data slots.
`null` is Python `None`. -/
inductive Val
  | null
  | int (n : Int)
  | str (s : String)
  | list (xs : List Val)

/-- Python `DataItem` (src/aiwin_resource/base.py): `{data, version, timestamp}`.
The timestamp is the abstract clock value at the moment of the append. -/
structure DataItem where
  data : Val
  version : Nat
  timestamp : Nat

/-- Python `datetime.isoformat` modelled as an abstract rendering of the model clock
into a string. -/
def isoformat (t : Nat) : String := toString t

/-- Python `DataToken` (src/aiwin_resource/base.py): `{key, version, timestamp}`
with the timestamp already rendered by `isoformat`. -/
structure DataToken where
  key : String
  version : Nat
  timestamp : String
  deriving DecidableEq, Repr

/-- The context dictionary a resource is constructed with.  Python passes a
plain dict; the fields below record which keys the concrete dicts of this
repository carry.  `has_event_emitter` is whether the key `event_emitter` is
present (base.py's `ResourceContext` TypedDict declares it required, but
creator.py builds the dict without it); `has_creator` is whether the key
`creator` is present.  The remaining fields model the `ctx.get(...)` lookups
performed by the plugin constructors. -/
structure ResourceCtx where
  has_event_emitter : Bool := false
  has_creator : Bool := false
  data : Option Val := none
  generate_siblings : Bool := false
  has_serialize_fn : Bool := false

/-- The config dictionary passed to `Resource.__init__`.  `name`/`scopes` are
`none` when the key is missing or holds a value of the wrong runtime type
(`is_valid_resource_config` checks `type(...) is str` / `is list`).
`pool_size = none` models an absent key (so `config.get('pool_size', 5)`
yields 5); `pool_size = some none` models an explicit `None`;
`pool_size = some (some n)` an explicit int. -/
structure RConfig where
  name : Option String := none
  scopes : Option (List String) := none
  data : Val := .null
  pool_size : Option (Option Int) := none
  filename : Option String := none

/-- Python `is_valid_resource_config` (src/aiwin_resource/utils.py). -/
def is_valid_resource_config (config : RConfig) : Bool :=
  config.name.isSome && config.scopes.isSome

/-- The mutable state of a `Resource` object (src/aiwin_resource/base.py).
`_data` and `_timestamp` are the legacy instance attributes that several
plugin methods read (`self._data`, `self._timestamp`); no code path of the
current sources ever assigns them, which the model represents by `Option`
fields that every constructor leaves at `none` (an attribute read of `none`
is an `AttributeError`). -/
structure Resource where
  ctx : ResourceCtx
  name : String
  scopes : List String
  key : String
  pool : List DataItem
  pool_size : Option Int
  version : Nat
  _data : Option Val := none
  _timestamp : Option Nat := none

/-- Tail of `Resource.set_data` after the eviction step: build the
`DataItem`, append it to the pool, then emit `resource_updated` via
`self._ctx['event_emitter']` — a `KeyError` when the context lacks that key.
No handler is registered on `resource_updated` anywhere in the repository,
so a successful emit does not change resource state. -/
def Resource.set_data_finish (r : Resource) (data : Val) (now : Nat) :
    Resource × Except PyErr DataItem :=
  let item : DataItem := ⟨data, r.version, now⟩
  let r2 := { r with pool := r.pool ++ [item] }
  if r2.ctx.has_event_emitter then (r2, .ok item) else (r2, .error .keyError)

/-- Python `Resource.set_data` (src/aiwin_resource/base.py, lines 147-160):
increments `_version`, pops the pool head when `pool_size` is set and
`len(pool) >= pool_size` (an `IndexError` when the pool is empty), then runs
`set_data_finish`.  Python mutates `self` in place step by step, so the
function returns the mutated state even when the call raises. -/
def Resource.set_data (r : Resource) (data : Val) (now : Nat) :
    Resource × Except PyErr DataItem :=
  let r1 := { r with version := r.version + 1 }
  match r1.pool_size with
  | some ps =>
    if ps ≤ (r1.pool.length : Int) then
      match r1.pool with
      | [] => (r1, .error .indexError)
      | _ :: rest => Resource.set_data_finish { r1 with pool := rest } data now
    else
      Resource.set_data_finish r1 data now
  | none => Resource.set_data_finish r1 data now

/-- The object state `Resource.__init__` has built just before its final
`self.set_data(config.get('data', None))` call: empty pool and sibling list,
fields copied from the config, `pool_size` defaulted to 5 when absent, and
the derived key `'.'.join(scopes) + '.' + name`. -/
def Resource.init_state (ctx : ResourceCtx) (config : RConfig)
    (name : String) (scopes : List String) : Resource :=
  { ctx := ctx, name := name, scopes := scopes,
    key := String.intercalate "." scopes ++ "." ++ name,
    pool := [],
    pool_size :=
      match config.pool_size with
      | none => some 5
      | some v => v,
    version := 0 }

/-- Python `Resource.__init__` (src/aiwin_resource/base.py, lines 87-97): validates
the config (`ValueError` on a missing or mis-typed `name`/`scopes`), builds
the initial state, and performs the initial `set_data`.  When that initial
`set_data` raises, `__init__` propagates and no object is constructed. -/
def Resource.init (ctx : ResourceCtx) (config : RConfig) (now : Nat) :
    Except PyErr Resource :=
  match config.name, config.scopes with
  | some name, some scopes =>
    match ((Resource.init_state ctx config name scopes).set_data config.data now).2 with
    | .ok _ => .ok ((Resource.init_state ctx config name scopes).set_data config.data now).1
    | .error e => .error e
  | _, _ => .error .valueError

/-- Python `Resource._get_latest_item` (base.py, lines 136-138): the unguarded
`self._pool[-1]`, an `IndexError` on an empty pool. -/
def Resource.get_latest_item (r : Resource) : Except PyErr DataItem :=
  match r.pool.getLast? with
  | some item => .ok item
  | none => .error .indexError

/-- Python `Resource.get_item` (base.py, lines 130-134). -/
def Resource.get_item (r : Resource) (version : Option Nat) :
    Except PyErr (Option DataItem) :=
  match version with
  | none =>
    match r.get_latest_item with
    | .ok item => .ok (some item)
    | .error e => .error e
  | some v => .ok (r.pool.find? (fun item => item.version == v))

/-- Python `Resource.get_data` (base.py, lines 140-145). -/
def Resource.get_data (r : Resource) (version : Option Nat) :
    Except PyErr (Option Val) :=
  match r.get_item version with
  | .error e => .error e
  | .ok none => .ok none
  | .ok (some item) => .ok (some item.data)

/-- Python `Resource.create_token` (base.py, lines 119-128). -/
def Resource.create_token (r : Resource) : Except PyErr (Option DataToken) :=
  match r.get_item none with
  | .error e => .error e
  | .ok none => .ok none
  | .ok (some item) => .ok (some ⟨r.key, item.version, isoformat item.timestamp⟩)

lemma set_data_finish_fst (r : Resource) (d : Val) (now : Nat) :
    (Resource.set_data_finish r d now).1 =
      { r with pool := r.pool ++ [⟨d, r.version, now⟩] } := by
  unfold Resource.set_data_finish
  by_cases h : r.ctx.has_event_emitter = true <;> simp [h]

lemma set_data_finish_snd_ok (r : Resource) (d : Val) (now : Nat)
    (h : r.ctx.has_event_emitter = true) :
    (Resource.set_data_finish r d now).2 = .ok ⟨d, r.version, now⟩ := by
  unfold Resource.set_data_finish
  simp [h]

lemma set_data_finish_snd_err (r : Resource) (d : Val) (now : Nat)
    (h : r.ctx.has_event_emitter = false) :
    (Resource.set_data_finish r d now).2 = .error .keyError := by
  unfold Resource.set_data_finish
  simp [h]

lemma set_data_eq_of_none (r : Resource) (d : Val) (now : Nat)
    (hps : r.pool_size = none) :
    r.set_data d now =
      Resource.set_data_finish { r with version := r.version + 1 } d now := by
  unfold Resource.set_data
  simp [hps]

lemma set_data_eq_of_lt (r : Resource) (d : Val) (now : Nat) (ps : Int)
    (hps : r.pool_size = some ps) (hlt : (r.pool.length : Int) < ps) :
    r.set_data d now =
      Resource.set_data_finish { r with version := r.version + 1 } d now := by
  unfold Resource.set_data
  simp only [hps]
  rw [if_neg (by simpa using not_le.mpr hlt)]

lemma set_data_eq_of_ge (r : Resource) (d : Val) (now : Nat) (ps : Int)
    (a : DataItem) (rest : List DataItem)
    (hps : r.pool_size = some ps) (hge : ps ≤ (r.pool.length : Int))
    (hp : r.pool = a :: rest) :
    r.set_data d now =
      Resource.set_data_finish
        { r with version := r.version + 1, pool := rest } d now := by
  unfold Resource.set_data
  simp only [hps, hp]
  rw [if_pos (by simpa [hp] using hge)]

lemma set_data_eq_of_ge_nil (r : Resource) (d : Val) (now : Nat) (ps : Int)
    (hps : r.pool_size = some ps) (hge : ps ≤ 0) (hp : r.pool = []) :
    r.set_data d now = ({ r with version := r.version + 1 }, .error .indexError) := by
  unfold Resource.set_data
  simp only [hps, hp]
  rw [if_pos (by simpa [hp] using hge)]

/-- The resource object states that can actually exist at runtime: produced
by a completed `__init__` and evolved by `set_data` calls (which keep their
in-place mutations even when they raise). -/
inductive ReachesR : Resource → Prop
  | init (ctx : ResourceCtx) (config : RConfig) (now : Nat) (r : Resource)
      (h : Resource.init ctx config now = .ok r) : ReachesR r
  | step (r : Resource) (data : Val) (now : Nat)
      (h : ReachesR r) : ReachesR (r.set_data data now).1

/-- The pool bound respected by live resources. -/
def PoolOk (r : Resource) : Prop :=
  ∀ ps : Int, r.pool_size = some ps → (r.pool.length : Int) ≤ ps

/-- Structural invariant of every reachable resource state: nonempty pool,
pool size `null` or at least 1, an `event_emitter` in the context, the legacy
`_data` / `_timestamp` attributes unset, and the pool bound. -/
def ResourceInv (r : Resource) : Prop :=
  r.pool ≠ [] ∧
  (r.pool_size = none ∨ ∃ ps : Int, r.pool_size = some ps ∧ 1 ≤ ps) ∧
  r.ctx.has_event_emitter = true ∧
  r._data = none ∧
  r._timestamp = none ∧
  PoolOk r

lemma init_ok_aux (r0 : Resource) (d : Val) (now : Nat) (r : Resource)
    (hp : r0.pool = []) (hd2 : r0._data = none) (ht : r0._timestamp = none)
    (h : (match (r0.set_data d now).2 with
          | Except.ok _ => Except.ok (r0.set_data d now).1
          | Except.error e => Except.error e) = Except.ok r) :
    ResourceInv r := by
  cases hps : r0.pool_size with
  | none =>
    rw [set_data_eq_of_none r0 d now hps] at h
    cases hem : r0.ctx.has_event_emitter with
    | false =>
      rw [set_data_finish_snd_err _ _ _ (by simpa using hem)] at h
      simp at h
    | true =>
      rw [set_data_finish_snd_ok _ _ _ (by simpa using hem)] at h
      simp only [set_data_finish_fst, Except.ok.injEq] at h
      subst h
      refine ⟨by simp, Or.inl (by simpa using hps), by simpa using hem,
        by simpa using hd2, by simpa using ht, ?_⟩
      intro q hq
      simp only at hq
      rw [hps] at hq
      exact absurd hq (by simp)
  | some n =>
    by_cases hge : n ≤ (0 : Int)
    · rw [set_data_eq_of_ge_nil r0 d now n hps hge hp] at h
      simp at h
    · rw [set_data_eq_of_lt r0 d now n hps (by rw [hp]; simpa using by omega)] at h
      cases hem : r0.ctx.has_event_emitter with
      | false =>
        rw [set_data_finish_snd_err _ _ _ (by simpa using hem)] at h
        simp at h
      | true =>
        rw [set_data_finish_snd_ok _ _ _ (by simpa using hem)] at h
        simp only [set_data_finish_fst, Except.ok.injEq] at h
        subst h
        refine ⟨by simp, Or.inr ⟨n, by simpa using hps, by omega⟩, by simpa using hem,
          by simpa using hd2, by simpa using ht, ?_⟩
        intro q hq
        simp only at hq
        rw [hps] at hq
        simp only [Option.some.injEq] at hq
        subst hq
        rw [hp]
        simp
        omega

lemma init_inv (ctx : ResourceCtx) (config : RConfig) (now : Nat)
    (r : Resource) (h : Resource.init ctx config now = .ok r) : ResourceInv r := by
  unfold Resource.init at h
  cases hn : config.name with
  | none => rw [hn] at h; exact absurd h (by simp)
  | some name =>
    cases hs : config.scopes with
    | none => rw [hn, hs] at h; exact absurd h (by simp)
    | some scopes =>
      rw [hn, hs] at h
      simp only at h
      exact init_ok_aux (Resource.init_state ctx config name scopes) config.data now r
        rfl rfl rfl h

lemma step_inv (r : Resource) (data : Val) (now : Nat)
    (h : ResourceInv r) : ResourceInv (r.set_data data now).1 := by
  obtain ⟨hne, hps, hem, hd, ht, hpo⟩ := h
  rcases hps with h0 | ⟨ps, hpsv, hps1⟩
  · rw [set_data_eq_of_none r data now h0, set_data_finish_fst]
    refine ⟨by simp, Or.inl (by simp [h0]), by simp [hem], by simp [hd], by simp [ht], ?_⟩
    intro q hq
    simp only [h0] at hq
    exact absurd hq (by simp)
  · by_cases hge : ps ≤ (r.pool.length : Int)
    · cases hp : r.pool with
      | nil => exact absurd hp hne
      | cons a rest =>
        rw [set_data_eq_of_ge r data now ps a rest hpsv hge hp, set_data_finish_fst]
        refine ⟨by simp, Or.inr ⟨ps, by simp [hpsv], hps1⟩, by simp [hem],
          by simp [hd], by simp [ht], ?_⟩
        intro q hq
        simp only [hpsv, Option.some.injEq] at hq
        subst hq
        have hlen := hpo ps hpsv
        rw [hp] at hlen
        simp only [List.length_append, List.length_cons, List.length_nil] at hlen ⊢
        simp
        push_cast at hlen ⊢
        omega
    · rw [set_data_eq_of_lt r data now ps hpsv (by omega), set_data_finish_fst]
      refine ⟨by simp, Or.inr ⟨ps, by simp [hpsv], hps1⟩, by simp [hem],
        by simp [hd], by simp [ht], ?_⟩
      intro q hq
      simp only [hpsv, Option.some.injEq] at hq
      subst hq
      simp only [List.length_append, List.length_cons, List.length_nil]
      push_cast
      omega

lemma reaches_inv (r : Resource) (h : ReachesR r) : ResourceInv r := by
  induction h with
  | init ctx config now r h => exact init_inv ctx config now r h
  | step r data now _ ih => exact step_inv r data now ih

lemma set_data_fst_pool_nonempty_of_inv (r : Resource) (d : Val) (now : Nat)
    (hne : r.pool ≠ []) : (r.set_data d now).1.pool ≠ [] := by
  cases hps : r.pool_size with
  | none =>
    rw [set_data_eq_of_none r d now hps, set_data_finish_fst]
    simp
  | some ps =>
    by_cases hge : ps ≤ (r.pool.length : Int)
    · rcases List.exists_cons_of_ne_nil hne with ⟨a, rest, hp⟩
      rw [set_data_eq_of_ge r d now ps a rest hps hge hp, set_data_finish_fst]
      simp
    · rw [set_data_eq_of_lt r d now ps hps (by omega), set_data_finish_fst]
      simp

/-- Claim C3: on every live resource, `set_data` (also with `data = null`)
returns a `DataItem` whose version is `version + 1`, strictly above every
previously returned version (the resource's `version` field always equals
the last returned version); the pool length stays within `pool_size`
whenever `pool_size` is set; and on overflow the evicted entry is the pool
head (FIFO). -/
theorem set_data_version_and_pool (r : Resource) (data : Val) (now : Nat)
    (h : ReachesR r) :
    (r.set_data data now).2 = Except.ok ⟨data, r.version + 1, now⟩ ∧
    (r.set_data data now).1.version = r.version + 1 ∧
    (∀ ps : Int, r.pool_size = some ps →
      (((r.set_data data now).1.pool.length : Int) ≤ ps)) ∧
    (∀ ps : Int, r.pool_size = some ps → ps ≤ (r.pool.length : Int) →
      (r.set_data data now).1.pool = r.pool.tail ++ [⟨data, r.version + 1, now⟩]) := by
  obtain ⟨hne, hps, hem, -, -, hpo⟩ := reaches_inv r h
  rcases hps with h0 | ⟨ps, hpsv, hps1⟩
  · rw [set_data_eq_of_none r data now h0]
    refine ⟨?_, by rw [set_data_finish_fst], ?_, ?_⟩
    · rw [set_data_finish_snd_ok _ _ _ (by simpa using hem)]
    · intro q hq
      rw [h0] at hq
      exact absurd hq (by simp)
    · intro q hq
      rw [h0] at hq
      exact absurd hq (by simp)
  · by_cases hge : ps ≤ (r.pool.length : Int)
    · cases hp : r.pool with
      | nil => exact absurd hp hne
      | cons a rest =>
        rw [set_data_eq_of_ge r data now ps a rest hpsv hge hp]
        refine ⟨?_, by rw [set_data_finish_fst], ?_, ?_⟩
        · rw [set_data_finish_snd_ok _ _ _ (by simpa using hem)]
        · intro q hq
          rw [hpsv] at hq
          simp only [Option.some.injEq] at hq
          subst hq
          rw [set_data_finish_fst]
          have hlen := hpo ps hpsv
          rw [hp] at hlen
          simp only [List.length_cons] at hlen
          simp only [List.length_append, List.length_cons, List.length_nil]
          push_cast at hlen ⊢
          omega
        · intro q hq hq2
          rw [set_data_finish_fst]
          simp
    · rw [set_data_eq_of_lt r data now ps hpsv (by omega)]
      refine ⟨?_, by rw [set_data_finish_fst], ?_, ?_⟩
      · rw [set_data_finish_snd_ok _ _ _ (by simpa using hem)]
      · intro q hq
        rw [hpsv] at hq
        simp only [Option.some.injEq] at hq
        subst hq
        rw [set_data_finish_fst]
        simp only [List.length_append, List.length_cons, List.length_nil]
        push_cast
        omega
      · intro q hq hq2
        rw [hpsv] at hq
        simp only [Option.some.injEq] at hq
        subst hq
        omega

/-- Concrete context with an event dispatcher, as base.py's `ResourceContext`
declares. -/
def ctxW : ResourceCtx := { has_event_emitter := true }

/-- Concrete valid config used by the witnesses. -/
def cfgW : RConfig := { name := some "image", scopes := some ["node_a"] }

/-- The resource state `Resource.__init__ ctxW cfgW` produces at clock 0. -/
def rW : Resource :=
  { ctx := ctxW, name := "image", scopes := ["node_a"], key := "node_a.image",
    pool := [⟨Val.null, 1, 0⟩], pool_size := some 5, version := 1 }

theorem set_data_version_and_pool_witness :
    ReachesR rW ∧
    (rW.set_data (Val.int 7) 1).2 = Except.ok ⟨Val.int 7, rW.version + 1, 1⟩ := by
  have hr : ReachesR rW := ReachesR.init ctxW cfgW 0 rW rfl
  exact ⟨hr, (set_data_version_and_pool rW (Val.int 7) 1 hr).1⟩

/-- Claim C10: every successfully constructed resource has `pool_size` null
or at least 1 (a `pool_size` of 0 makes the constructor's initial `set_data`
pop from an empty pool and raise, so `__init__` never returns), the pool is
nonempty from construction onward (`set_data` never removes the last item),
and hence `get_item()`, `get_data()`, `create_token()` and the unguarded
`_get_latest_item` all succeed on every live resource. -/
theorem pool_nonempty_accessors_total (r : Resource) (h : ReachesR r) :
    r.pool ≠ [] ∧
    (r.pool_size = none ∨ ∃ ps : Int, r.pool_size = some ps ∧ 1 ≤ ps) ∧
    (∃ item, r.get_latest_item = Except.ok item) ∧
    (∃ item, r.get_item none = Except.ok (some item)) ∧
    (∃ d, r.get_data none = Except.ok (some d)) ∧
    (∃ t, r.create_token = Except.ok (some t)) ∧
    (∀ data now, (r.set_data data now).1.pool ≠ []) ∧
    (∀ ctx2 config2 now2 r2, config2.pool_size = some (some 0) →
      Resource.init ctx2 config2 now2 ≠ Except.ok r2) := by
  obtain ⟨hne, hps, hem, -, -, -⟩ := reaches_inv r h
  obtain ⟨item, hitem⟩ : ∃ item, r.pool.getLast? = some item := by
    rcases List.exists_cons_of_ne_nil hne with ⟨a, rest, hp⟩
    exact ⟨(a :: rest).getLast (by simp), by rw [hp]; exact List.getLast?_eq_getLast _ _⟩
  have hlat : r.get_latest_item = Except.ok item := by
    unfold Resource.get_latest_item
    rw [hitem]
  have hgi : r.get_item none = Except.ok (some item) := by
    unfold Resource.get_item
    rw [hlat]
  refine ⟨hne, hps, ⟨item, hlat⟩, ⟨item, hgi⟩, ⟨item.data, ?_⟩,
    ⟨⟨r.key, item.version, isoformat item.timestamp⟩, ?_⟩, ?_, ?_⟩
  · unfold Resource.get_data
    rw [hgi]
  · unfold Resource.create_token
    rw [hgi]
  · intro data now
    exact set_data_fst_pool_nonempty_of_inv r data now hne
  · intro ctx2 config2 now2 r2 h0 hcontra
    unfold Resource.init at hcontra
    cases hn : config2.name with
    | none => rw [hn] at hcontra; simp at hcontra
    | some name2 =>
      cases hs : config2.scopes with
      | none => rw [hn, hs] at hcontra; simp at hcontra
      | some scopes2 =>
        rw [hn, hs] at hcontra
        simp only at hcontra
        rw [set_data_eq_of_ge_nil (Resource.init_state ctx2 config2 name2 scopes2)
          config2.data now2 0 (by simp [Resource.init_state, h0]) le_rfl rfl] at hcontra
        simp at hcontra

theorem pool_nonempty_accessors_total_witness :
    ReachesR rW ∧ rW.pool ≠ [] ∧ (∃ t, rW.create_token = Except.ok (some t)) := by
  have hr : ReachesR rW := ReachesR.init ctxW cfgW 0 rW rfl
  have hthm := pool_nonempty_accessors_total rW hr
  exact ⟨hr, hthm.1, hthm.2.2.2.2.2.1⟩

/-- Observable behaviour of one registered handler during a single dispatch:
the (event, payload) pairs it emits via the same dispatcher while it runs,
in order, and whether it then raises.  Because a dispatch is in progress
while handlers run, each of those inner `emit` calls only appends its pair
to the dispatcher queue and returns (proved below from the `emit` model),
which is why a handler's effect on the dispatcher is fully described by this
data. -/
structure Handler where
  emits : List (String × Val) := []
  raises : Bool := false

/-- State of an `EventEmitter` (src/event_emitter.py): the `_listeners`
dict, the `_queue` deque, and the `_is_emitting` flag.  The engine is
single-threaded within a dispatch, so the lock is not modelled. -/
structure EmitterState where
  listeners : List (String × List Handler)
  queue : List (String × Val)
  is_emitting : Bool

/-- Python `self._listeners.get(evt, [])` — a `defaultdict(list)` read that does
not insert. -/
def getListeners (ls : List (String × List Handler)) (evt : String) : List Handler :=
  match ls.lookup evt with
  | some hs => hs
  | none => []

/-- The `for handler in listeners: handler(payload)` loop over the listener
snapshot for one dequeued event.  Each handler appends its own emits to the
queue; there is no try/except around `handler(payload)`, so the first
raising handler aborts the loop (the boolean result), skipping every later
handler in the snapshot. -/
def runHandlers : List Handler → List (String × Val) → List (String × Val) × Bool
  | [], queue => (queue, false)
  | h :: rest, queue =>
    let queue2 := queue ++ h.emits
    if h.raises then (queue2, true) else runHandlers rest queue2

/-- Outcome of a dispatch: normal return, a handler exception propagating
out of `emit`, or the iteration bound `fuel` being exhausted (the Python
while-loop has no bound; `outOfFuel` asserts nothing about the program). -/
inductive EmitResult
  | ok
  | raised
  | outOfFuel
  deriving DecidableEq, Repr

/-- The `while True` drain loop of `EventEmitter.emit` (src/event_emitter.py,
lines 31-49): pop the queue head, run its listener snapshot, repeat until the
queue is empty (then clear `_is_emitting` and return).  When a handler
raises, the exception propagates; the `finally` clause resets `_is_emitting`
but the not-yet-dispatched events stay queued. -/
def drain (fuel : Nat) (s : EmitterState) : EmitterState × EmitResult :=
  match fuel with
  | 0 => (s, .outOfFuel)
  | fuel + 1 =>
    match s.queue with
    | [] => ({ s with is_emitting := false }, .ok)
    | (evt, _payload) :: rest =>
      let res := runHandlers (getListeners s.listeners evt) rest
      if res.2 then ({ s with queue := res.1, is_emitting := false }, .raised)
      else drain fuel { s with queue := res.1 }

/-- Python `EventEmitter.emit` (src/event_emitter.py, lines 22-49): append the
(event, data) pair to the queue; if a dispatch is already in progress,
return at once and let the outer dispatcher pick it up; otherwise set
`_is_emitting` and drain the queue. -/
def EventEmitter.emit (fuel : Nat) (s : EmitterState) (evt : String) (payload : Val) :
    EmitterState × EmitResult :=
  let s1 : EmitterState := { s with queue := s.queue ++ [(evt, payload)] }
  if s1.is_emitting then (s1, .ok)
  else drain fuel { s1 with is_emitting := true }

lemma drain_ok (fuel : Nat) (s s2 : EmitterState)
    (h : drain fuel s = (s2, .ok)) : s2.queue = [] ∧ s2.is_emitting = false := by
  induction fuel generalizing s with
  | zero => simp [drain] at h
  | succ n ih =>
    unfold drain at h
    cases hq : s.queue with
    | nil =>
      rw [hq] at h
      simp only [Prod.mk.injEq] at h
      obtain ⟨h1, -⟩ := h
      subst h1
      exact ⟨rfl, rfl⟩
    | cons p rest =>
      obtain ⟨evt, payload⟩ := p
      rw [hq] at h
      simp only at h
      by_cases hr : (runHandlers (getListeners s.listeners evt) rest).2 = true
      · rw [if_pos hr] at h
        simp at h
      · rw [if_neg hr] at h
        exact ih _ h

/-- Claim C5: an `emit` issued while a dispatch is in progress only appends
its (event, payload) pair to the queue and returns — invoking no handler, as
the state is otherwise untouched — and an outermost `emit` that returns
normally has drained the queue to empty and cleared the dispatch flag. -/
theorem emit_reentrant_queue_drain (s : EmitterState) (evt : String)
    (payload : Val) (fuel : Nat) :
    (s.is_emitting = true →
      EventEmitter.emit fuel s evt payload =
        ({ s with queue := s.queue ++ [(evt, payload)] }, EmitResult.ok)) ∧
    (∀ s2, EventEmitter.emit fuel s evt payload = (s2, EmitResult.ok) →
      s.is_emitting = false →
      s2.queue = [] ∧ s2.is_emitting = false) := by
  constructor
  · intro h
    unfold EventEmitter.emit
    simp [h]
  · intro s2 h h0
    unfold EventEmitter.emit at h
    simp only [h0] at h
    rw [if_neg (by simp [h0])] at h
    exact drain_ok fuel _ s2 h

/-- Listener set used by the C5 witness: a handler on "a" that re-emits "b"
(whose own handler does nothing), exercising a recursive-emit chain. -/
def emitterW : EmitterState :=
  { listeners := [("a", [{ emits := [("b", Val.null)] }]), ("b", [{ }])],
    queue := [], is_emitting := false }

theorem emit_reentrant_queue_drain_witness :
    (EventEmitter.emit 5 { emitterW with is_emitting := true } "a" Val.null =
      ({ emitterW with is_emitting := true, queue := [("a", Val.null)] },
        EmitResult.ok)) ∧
    ((EventEmitter.emit 5 emitterW "a" Val.null).1.queue = [] ∧
      (EventEmitter.emit 5 emitterW "a" Val.null).1.is_emitting = false) := by
  constructor
  · exact (emit_reentrant_queue_drain { emitterW with is_emitting := true }
      "a" Val.null 5).1 rfl
  · exact (emit_reentrant_queue_drain emitterW "a" Val.null 5).2
      (EventEmitter.emit 5 emitterW "a" Val.null).1 (by rfl) rfl

/-- Dispatcher used to refute claim C4: on "e", a first handler that emits
("f", null) and then raises, followed by a second handler which, were it
invoked, would enqueue the marker event "h2_ran"; on "f", a handler which,
were "f" dispatched, would enqueue the marker "h3_ran". -/
def emitterCE : EmitterState :=
  { listeners :=
      [("e", [{ emits := [("f", Val.null)], raises := true },
              { emits := [("h2_ran", Val.null)] }]),
       ("f", [{ emits := [("h3_ran", Val.null)] }])],
    queue := [], is_emitting := false }

/-- Claim C4 is false on the code: `emit` has no try/except around
`handler(payload)`, so the first handler's exception propagates out of
`emit` (result `raised`, not a logged-and-continued `ok`); the second
handler for "e" never runs (no "h2_ran" in the final queue) and the queued
event ("f", null) is left undispatched (it stays in the queue and no
"h3_ran" appears). -/
theorem emit_handler_exception_not_caught :
    EventEmitter.emit 10 emitterCE "e" Val.null =
      ({ emitterCE with queue := [("f", Val.null)] }, EmitResult.raised) := by
  rfl

/-- Claim C4 amended: when a handler raises during the outermost dispatch,
the exception propagates out of `emit` uncaught; the handlers after it in
the snapshot and the remaining queued events are not dispatched by this
call — the `finally` clause only resets `_is_emitting`, and the undispatched
events (including those the failing handler emitted) remain in the queue for
the next `emit` to pick up. -/
theorem emit_handler_exception_propagates (s : EmitterState) (evt : String)
    (payload : Val) (fuel : Nat) (q2 : List (String × Val))
    (h0 : s.is_emitting = false) (hq : s.queue = [])
    (hrun : runHandlers (getListeners s.listeners evt) [] = (q2, true))
    (hfuel : 0 < fuel) :
    EventEmitter.emit fuel s evt payload =
      ({ s with queue := q2, is_emitting := false }, EmitResult.raised) := by
  unfold EventEmitter.emit
  rw [if_neg (by simp [h0])]
  cases fuel with
  | zero => omega
  | succ n =>
    unfold drain
    simp only [hq, List.nil_append, hrun]
    simp

/-- Dispatcher used by the C4 witness: a single handler on "g" that emits
("x", null) and then raises. -/
def emitterRW : EmitterState :=
  { listeners := [("g", [{ emits := [("x", Val.null)], raises := true }])],
    queue := [], is_emitting := false }

theorem emit_handler_exception_propagates_witness :
    EventEmitter.emit 10 emitterRW "g" Val.null =
      ({ emitterRW with queue := [("x", Val.null)], is_emitting := false },
        EmitResult.raised) :=
  emit_handler_exception_propagates emitterRW "g" Val.null 10
    [("x", Val.null)] rfl rfl rfl (by omega)

/-- Python `self._registry[key] = resource` — an in-place Python dict write:
overwrite the binding when the key is present, else append it. -/
def dictSet {ρ : Type} (m : List (String × ρ)) (k : String) (v : ρ) :
    List (String × ρ) :=
  match m with
  | [] => [(k, v)]
  | (k2, v2) :: rest => if k2 = k then (k, v) :: rest else (k2, v2) :: dictSet rest k v

/-- Python `ResourceInstanceManager` (src/aiwin_resource/instance_manager.py).
`_registry: Dict[str, Resource[Any]] = {}` is a class attribute that the
methods only ever mutate in place, so every instance of the class — across
pipeline runs — aliases the same dict; the model therefore carries one
registry value per class, and the values it stores are opaque (`ρ`). -/
structure ResourceInstanceManager (ρ : Type) where
  _registry : List (String × ρ)

/-- Python `ResourceInstanceManager()` — the class defines no `__init__`, so
instantiating it (as `_initialize_components` does on every start) touches
neither the shared class-level `_registry` nor anything else. -/
def ResourceInstanceManager.new {ρ : Type} (s : ResourceInstanceManager ρ) :
    ResourceInstanceManager ρ := s

/-- Python `ResourceInstanceManager.set` (instance_manager.py, lines 9-10). -/
def ResourceInstanceManager.set {ρ : Type} (s : ResourceInstanceManager ρ)
    (key : String) (resource : ρ) : ResourceInstanceManager ρ :=
  { s with _registry := dictSet s._registry key resource }

/-- Python `ResourceInstanceManager.get` (instance_manager.py, lines 12-13):
`return self._registry[key]` — a plain dict subscript, which raises
`KeyError` when the key is absent, despite the declared return type
`Resource[Any] | None`. -/
def ResourceInstanceManager.get {ρ : Type} (s : ResourceInstanceManager ρ)
    (key : String) : Except PyErr ρ :=
  match s._registry.lookup key with
  | some r => .ok r
  | none => .error .keyError

/-- Claim C9 is wrong about the code: `get` on an unbound key raises
`KeyError` instead of returning `None` (first conjunct; its own type
annotation `-> Resource[Any] | None` and its caller's
`if image_resource is None` check in BinarizationNode.execute show the
null-return was the intent), while a bound key does return its resource
(second conjunct). -/
theorem instance_manager_get_raises_key_error :
    ((⟨[]⟩ : ResourceInstanceManager Nat).get "node_a.image" =
      Except.error PyErr.keyError) ∧
    ((⟨[("node_a.image", 42)]⟩ : ResourceInstanceManager Nat).get "node_a.image" =
      Except.ok 42) := by
  exact ⟨rfl, rfl⟩

/-- Claim C6 is wrong about the code: starting from the empty class-level
registry, a first run binds "node_a.image"; the second start's
`_initialize_components` builds `ResourceInstanceManager()` afresh, yet the
new manager's map still holds the first run's binding (it is the same shared
class dict), so the map is not empty after initialization. -/
theorem instance_manager_registry_shared_across_runs :
    (((((⟨[]⟩ : ResourceInstanceManager Nat).new).set "node_a.image" 42).new)._registry =
      [("node_a.image", 42)]) ∧
    (((((⟨[]⟩ : ResourceInstanceManager Nat).new).set "node_a.image" 42).new).get
      "node_a.image" = Except.ok 42) := by
  exact ⟨rfl, rfl⟩

/-- One entry of `self._node_instances` as the `execute_node` closure
observes it during a tick: whether its `execute()` raises this tick, and its
`cfg['_next_node_index']` (injected by `_run_pipeline_thread`; `none` marks
the last node of the pipeline). -/
structure NodeSpec where
  executeRaises : Bool
  next_node_index : Option Nat

/-- The hand-off `execute_node` performs after the tick: the loop-back
`emit("node_start_0")` for the last node, the `node_instance.next()` call
otherwise, or returning with neither. -/
inductive HandOff
  | emitStart0
  | callNext
  | noHandOff
  deriving DecidableEq, Repr

/-- The closure `create_node_executor(node_index)` registers on
`node_start_{node_index}` (src/main.py, lines 298-404).  The try block
checks the stop flag, bounds-checks `node_index`, fetches the instance,
re-checks the stop flag and calls `execute()`; the `except` branch catches
every exception and sets `node_instance = None`; the code after the
try/except returns when the stop flag is set, then — when `node_instance`
is `None` — logs "cannot proceed" and returns, and otherwise performs the
hand-off chosen by `cfg['_next_node_index']`. -/
def execute_node (stop_event : Bool) (node_instances : List NodeSpec)
    (node_index : Nat) : HandOff :=
  if stop_event then .noHandOff
  else if node_instances.length ≤ node_index then .noHandOff
  else
    match node_instances.get? node_index with
    | none => .noHandOff
    | some node_instance =>
      if stop_event then .noHandOff
      else if node_instance.executeRaises then .noHandOff
      else
        match node_instance.next_node_index with
        | none => .emitStart0
        | some _ => .callNext

/-- Claim C1 is wrong about the code: a tick whose `execute()` raises is
caught, but the `except` branch marks `node_instance = None` and the
post-try code then returns without calling `next()` or emitting
`node_start_0`, so the failed tick performs no hand-off and the loop halts
(first conjunct) — even though the same single-node pipeline loops back via
`node_start_0` on a successful tick (second conjunct) and an inner node
chains via `next()` (third conjunct). -/
theorem execute_node_error_halts_loop :
    execute_node false [⟨true, none⟩] 0 = HandOff.noHandOff ∧
    execute_node false [⟨false, none⟩] 0 = HandOff.emitStart0 ∧
    execute_node false [⟨false, some 1⟩, ⟨false, none⟩] 0 = HandOff.callNext := by
  exact ⟨rfl, rfl, rfl⟩

/-- State of an `ImageResource` (src/aiwin_resource/plugins/image/v1/main.py):
the base resource plus `self._filename`. -/
structure ImageState where
  base : Resource
  _filename : String

/-- State of a `StringResource` (plugins/string/v1/main.py): the base
resource plus `self.data = ctx.get('data')`. -/
structure StringState where
  base : Resource
  data : Option Val

/-- State of a `NumberResource` (plugins/number/v1/main.py): the base
resource plus `self._generate_siblings = ctx.get('generate_siblings', False)`. -/
structure NumberState where
  base : Resource
  _generate_siblings : Bool

/-- State of an `UnknownResource` (plugins/unknown/v1/main.py): the base
resource plus whether `ctx.get('serialize_fn')` supplied a function. -/
structure UnknownState where
  base : Resource
  _serialize_fn : Bool

/-- State of a `NumbersResource` (plugins/numbers/v1/main.py): base resource,
`self._generate_siblings`, and the sibling list.  (In the source `_siblings`
is declared as a class attribute, but `set_data` rebinds it through
`self._siblings = ...`, which creates an instance attribute; the model keeps
it per instance.) -/
structure NumbersState where
  base : Resource
  _generate_siblings : Bool
  _siblings : List Resource

/-- State of a `UsbDevicesResource` (plugins/vision/input/usb_devices/v1/main.py):
base resource plus the sibling list of `UsbDeviceResource` states. -/
structure UsbDevicesState where
  base : Resource
  _siblings : List Resource

/-- Python `str(...)` rendering of a value, used only for the
`f"usb_device_{device_id}"` sibling names; abstract for non-primitive
values. -/
def pyStrOfVal : Val → String
  | .null => "None"
  | .int n => toString n
  | .str s => s
  | .list _ => "list"

/-- Python `ImageResource.__init__` (plugins/image/v1/main.py, lines 16-34): base
init, `self._filename = config.get('filename', 'image.jpg')`, then
`isinstance(self._data, np.ndarray)` — a read of the never-assigned `_data`
attribute, an `AttributeError` unless some code had set it. -/
def ImageResource.init (ctx : ResourceCtx) (config : RConfig) (now : Nat) :
    Except PyErr ImageState :=
  match Resource.init ctx config now with
  | .error e => .error e
  | .ok b =>
    match b._data with
    | none => .error .attributeError
    | some _ => .ok ⟨b, config.filename.getD "image.jpg"⟩

/-- Python `StringResource.__init__` (plugins/string/v1/main.py, lines 17-19): base
init, then `self.data = ctx.get('data')`. -/
def StringResource.init (ctx : ResourceCtx) (config : RConfig) (now : Nat) :
    Except PyErr StringState :=
  match Resource.init ctx config now with
  | .error e => .error e
  | .ok b => .ok ⟨b, ctx.data⟩

/-- Python `NumberResource.__init__` (plugins/number/v1/main.py, lines 21-23): base
init, then `self._generate_siblings = ctx.get('generate_siblings', False)`. -/
def NumberResource.init (ctx : ResourceCtx) (config : RConfig) (now : Nat) :
    Except PyErr NumberState :=
  match Resource.init ctx config now with
  | .error e => .error e
  | .ok b => .ok ⟨b, ctx.generate_siblings⟩

/-- Python `UnknownResource.__init__` (plugins/unknown/v1/main.py, lines 18-20). -/
def UnknownResource.init (ctx : ResourceCtx) (config : RConfig) (now : Nat) :
    Except PyErr UnknownState :=
  match Resource.init ctx config now with
  | .error e => .error e
  | .ok b => .ok ⟨b, ctx.has_serialize_fn⟩

/-- The sibling-building loop of `UsbDevicesResource.__init__` (lines 29-34):
one `UsbDeviceResource(self._ctx, {...})` per element, whose base constructor
errors propagate. -/
def UsbDevicesResource.initSiblings (ctx : ResourceCtx) (b : Resource)
    (ids : List Val) (now : Nat) : Except PyErr (List Resource) :=
  match ids with
  | [] => .ok []
  | id :: rest =>
    match Resource.init ctx
        { name := some ("usb_device_" ++ pyStrOfVal id),
          scopes := some (b.scopes ++ [b.name]), data := id } now with
    | .error e => .error e
    | .ok s =>
      match UsbDevicesResource.initSiblings ctx b rest now with
      | .error e => .error e
      | .ok ss => .ok (s :: ss)

/-- Python `UsbDevicesResource.__init__` (plugins/vision/input/usb_devices/v1/main.py,
lines 23-34): base init, then `if self._data is None: return` — a read of the
never-assigned `_data` attribute, an `AttributeError` unless some code had
set it; were the attribute set, the element loop would build one
`UsbDeviceResource` sibling per element (iterating a non-sequence raises
`TypeError`). -/
def UsbDevicesResource.init (ctx : ResourceCtx) (config : RConfig) (now : Nat) :
    Except PyErr UsbDevicesState :=
  match Resource.init ctx config now with
  | .error e => .error e
  | .ok b =>
    match b._data with
    | none => .error .attributeError
    | some Val.null => .ok ⟨b, []⟩
    | some (Val.list ids) =>
      match UsbDevicesResource.initSiblings ctx b ids now with
      | .error e => .error e
      | .ok sibs => .ok ⟨b, sibs⟩
    | some _ => .error .typeError

/-- The seven resource classes registered with the creator. -/
inductive ResKind
  | imageV1
  | stringV1
  | numberV1
  | numbersV1
  | unknownV1
  | usbDeviceV1
  | usbDevicesV1
  deriving DecidableEq, Repr

/-- A constructed resource of any registered class. -/
inductive AnyResource
  | image (st : ImageState)
  | stringR (st : StringState)
  | number (st : NumberState)
  | numbers (st : NumbersState)
  | unknown (st : UnknownState)
  | usb_device (r : Resource)
  | usb_devices (st : UsbDevicesState)

/-- Python `resource_class(ctx, config)` for each registered class.
`NumbersResource.__init__` is declared as `(self, ctx)`, so the two
positional arguments every call site passes raise `TypeError` at once. -/
def constructResource (c : ResKind) (ctx : ResourceCtx) (config : RConfig)
    (now : Nat) : Except PyErr AnyResource :=
  match c with
  | .imageV1 => (ImageResource.init ctx config now).map AnyResource.image
  | .stringV1 => (StringResource.init ctx config now).map AnyResource.stringR
  | .numberV1 => (NumberResource.init ctx config now).map AnyResource.number
  | .numbersV1 => .error .typeError
  | .unknownV1 => (UnknownResource.init ctx config now).map AnyResource.unknown
  | .usbDeviceV1 => (Resource.init ctx config now).map AnyResource.usb_device
  | .usbDevicesV1 => (UsbDevicesResource.init ctx config now).map AnyResource.usb_devices

/-- The context dict `ResourceContext(creator=self)` that
`ResourceCreator.create` builds (src/aiwin_resource/creator.py, line 23):
it holds only the `creator` key — no `event_emitter`, although base.py's
`ResourceContext` TypedDict declares that key required. -/
def creatorCtx : ResourceCtx := { has_creator := true }

/-- Python `ResourceCreator.create` (src/aiwin_resource/creator.py, lines 18-24):
look up the constructor (`ValueError` when the schema is not registered) and
call it with `creatorCtx`. -/
def ResourceCreator.create (registry : List (String × ResKind)) (schema : String)
    (config : RConfig) (now : Nat) : Except PyErr AnyResource :=
  match registry.lookup schema with
  | none => .error .valueError
  | some c => constructResource c creatorCtx config now

/-- The schema registrations performed both at creator.py import time and by
`PipelineManager._initialize_components` (src/main.py, lines 80-89). -/
def orchestratorRegistry : List (String × ResKind) :=
  [("image.v1", .imageV1), ("string.v1", .stringV1), ("number.v1", .numberV1),
   ("numbers.v1", .numbersV1), ("unknown.v1", .unknownV1),
   ("vision.input.usb_device.v1", .usbDeviceV1),
   ("vision.input.usb_devices.v1", .usbDevicesV1)]

/-- Claim C2 is wrong about the code: the creator's context carries no event
dispatcher, so for every registered schema `create` with a valid config dies
inside the constructor — the initial `set_data` raises
`KeyError('event_emitter')` (and `numbers.v1` raises `TypeError` even
earlier, from its mis-declared `__init__`) — and `create` never returns a
constructed resource.  Only the final conjunct of the claim holds: an
unregistered schema fails with the not-registered `ValueError`. -/
theorem creator_create_missing_event_emitter :
    (ResourceCreator.create orchestratorRegistry "image.v1"
      { name := some "n", scopes := some [] } 0 = .error .keyError) ∧
    (ResourceCreator.create orchestratorRegistry "string.v1"
      { name := some "n", scopes := some [] } 0 = .error .keyError) ∧
    (ResourceCreator.create orchestratorRegistry "number.v1"
      { name := some "n", scopes := some [] } 0 = .error .keyError) ∧
    (ResourceCreator.create orchestratorRegistry "numbers.v1"
      { name := some "n", scopes := some [] } 0 = .error .typeError) ∧
    (ResourceCreator.create orchestratorRegistry "unknown.v1"
      { name := some "n", scopes := some [] } 0 = .error .keyError) ∧
    (ResourceCreator.create orchestratorRegistry "vision.input.usb_device.v1"
      { name := some "n", scopes := some [] } 0 = .error .keyError) ∧
    (ResourceCreator.create orchestratorRegistry "vision.input.usb_devices.v1"
      { name := some "n", scopes := some [] } 0 = .error .keyError) ∧
    (ResourceCreator.create orchestratorRegistry "no.such.schema"
      { name := some "n", scopes := some [] } 0 = .error .valueError) := by
  exact ⟨rfl, rfl, rfl, rfl, rfl, rfl, rfl, rfl⟩

/-- A JSON-shaped field value inside a serialized record. -/
inductive RVal
  | s (x : String)
  | slist (xs : List String)
  | n (x : Nat)
  | v (x : Val)

/-- A serialized record: the Python dict, as an ordered key/value list. -/
abbrev Record := List (String × RVal)

/-- Python `NumberResource.serialize` (plugins/number/v1/main.py, lines 28-36).
The dict literal evaluates `self._timestamp.isoformat()` and `self._data` —
reads of attributes no current code path assigns, so the attribute lookup
raises `AttributeError` unless they were set. -/
def NumberResource.serialize (r : Resource) : Except PyErr (List Record) :=
  match r._timestamp with
  | none => .error .attributeError
  | some ts =>
    match r._data with
    | none => .error .attributeError
    | some d =>
      .ok [[("key", .s (String.intercalate "." r.scopes ++ "." ++ r.name)),
            ("schema", .s "number.v1"),
            ("name", .s r.name),
            ("timestamp", .s (isoformat ts)),
            ("scopes", .slist r.scopes),
            ("data", .v d)]]

/-- Python `StringResource.serialize` (plugins/string/v1/main.py, lines 24-32);
reads `self._timestamp` (never assigned) before `self.get_data()`. -/
def StringResource.serialize (r : Resource) : Except PyErr (List Record) :=
  match r._timestamp with
  | none => .error .attributeError
  | some ts =>
    match r.get_data none with
    | .error e => .error e
    | .ok d =>
      .ok [[("key", .s r.key),
            ("schema", .s "string.v1"),
            ("timestamp", .s (isoformat ts)),
            ("name", .s r.name),
            ("data", .v (d.getD Val.null)),
            ("scopes", .slist r.scopes)]]

/-- Python `UnknownResource.serialize` (plugins/unknown/v1/main.py, lines 25-35):
`ValueError` without a serialize function, then the `self._timestamp` and
`self._data` reads; the user-supplied `serialize_fn` application is
abstracted as its argument. -/
def UnknownResource.serialize (st : UnknownState) : Except PyErr (List Record) :=
  if !st._serialize_fn then .error .valueError
  else
    match st.base._timestamp with
    | none => .error .attributeError
    | some ts =>
      match st.base._data with
      | none => .error .attributeError
      | some d =>
        .ok [[("key", .s st.base.key),
              ("schema", .s "unknown.v1"),
              ("name", .s st.base.name),
              ("timestamp", .s (isoformat ts)),
              ("scopes", .slist st.base.scopes),
              ("data", .v d)]]

/-- Python `ImageResource.serialize` (plugins/image/v1/main.py, lines 39-47); reads
`self._timestamp` (never assigned). -/
def ImageResource.serialize (st : ImageState) : Except PyErr (List Record) :=
  match st.base._timestamp with
  | none => .error .attributeError
  | some ts =>
    .ok [[("key", .s st.base.key),
          ("schema", .s "image.v1"),
          ("timestamp", .s (isoformat ts)),
          ("name", .s st.base.name),
          ("scopes", .slist st.base.scopes),
          ("data", .s ("http://localhost:8000/file/" ++ st._filename))]]

/-- Python `NumbersResource.serialize` (plugins/numbers/v1/main.py, lines 43-57):
`data_list = list(self._data) if self._data is not None else None` reads
`self._data` first, then the dict reads `self._timestamp`. -/
def NumbersResource.serialize (st : NumbersState) : Except PyErr (List Record) :=
  match st.base._data with
  | none => .error .attributeError
  | some d =>
    match st.base._timestamp with
    | none => .error .attributeError
    | some ts =>
      .ok [[("key", .s (String.intercalate "." st.base.scopes ++ "." ++ st.base.name)),
            ("schema", .s "numbers.v1"),
            ("kind", .s "collection"),
            ("items", .s "number.v1"),
            ("name", .s st.base.name),
            ("timestamp", .s (isoformat ts)),
            ("scopes", .slist st.base.scopes),
            ("data", .v d)]]

/-- Python `UsbDeviceResource.serialize` (plugins/vision/input/usb_device/v1/main.py,
lines 25-40): the only serialize built from the pool — `get_item()`, empty
result list when the item is `None`, else one record carrying the item's
version and timestamp. -/
def UsbDeviceResource.serialize (r : Resource) : Except PyErr (List Record) :=
  match r.get_item none with
  | .error e => .error e
  | .ok none => .ok []
  | .ok (some item) =>
    .ok [[("key", .s r.key),
          ("schema", .s "vision.input.usb_device.v1"),
          ("name", .s r.name),
          ("scopes", .slist r.scopes),
          ("version", .n item.version),
          ("timestamp", .s (isoformat item.timestamp)),
          ("data", .v item.data)]]

/-- The `for sibling in self._siblings: serialized.extend(sibling.serialize())`
loop of `UsbDevicesResource.serialize`. -/
def serializeSiblings : List Resource → Except PyErr (List Record)
  | [] => .ok []
  | s :: rest =>
    match UsbDeviceResource.serialize s with
    | .error e => .error e
    | .ok rs =>
      match serializeSiblings rest with
      | .error e => .error e
      | .ok more => .ok (rs ++ more)

/-- Python `UsbDevicesResource.serialize` (plugins/vision/input/usb_devices/v1/main.py,
lines 39-52): the parent record (reading the never-assigned `self._timestamp`
and `self._data`) followed by each sibling's records. -/
def UsbDevicesResource.serialize (st : UsbDevicesState) : Except PyErr (List Record) :=
  match st.base._timestamp with
  | none => .error .attributeError
  | some ts =>
    match st.base._data with
    | none => .error .attributeError
    | some d =>
      match serializeSiblings st._siblings with
      | .error e => .error e
      | .ok recs =>
        .ok ([("key", .s st.base.key),
              ("schema", .s "vision.input.usb_devices.v1"),
              ("name", .s st.base.name),
              ("timestamp", .s (isoformat ts)),
              ("scopes", .slist st.base.scopes),
              ("data", .v d)] :: recs)

/-- Dispatch `serialize()` over the constructed classes. -/
def AnyResource.serialize : AnyResource → Except PyErr (List Record)
  | .image st => ImageResource.serialize st
  | .stringR st => StringResource.serialize st.base
  | .number st => NumberResource.serialize st.base
  | .numbers st => NumbersResource.serialize st
  | .unknown st => UnknownResource.serialize st
  | .usb_device r => UsbDeviceResource.serialize r
  | .usb_devices st => UsbDevicesResource.serialize st

/-- The in-place update loop of `NumbersResource.set_data` (lines 75-83):
for each index below `len(data)`, update the existing sibling in place via
its inherited `set_data`, and once the index passes the (truncated) sibling
list, evaluate `NumberResource({...})` — a single positional argument where
`__init__(self, ctx, config)` expects two, a `TypeError`.  Any exception
aborts the loop, keeping the updates already made. -/
def numbersReconcile (sibs : List Resource) (xs : List Val) (idx : Nat) (now : Nat) :
    List Resource × Except PyErr Unit :=
  if h : idx < xs.length then
    if h2 : idx < sibs.length then
      let upd := (sibs.get ⟨idx, h2⟩).set_data (xs.get ⟨idx, h⟩) now
      let sibs2 := sibs.set idx upd.1
      match upd.2 with
      | .error e => (sibs2, .error e)
      | .ok _ => numbersReconcile sibs2 xs (idx + 1) now
    else (sibs, .error .typeError)
  else (sibs, .ok ())
termination_by xs.length - idx

/-- Python `NumbersResource.set_data` (plugins/numbers/v1/main.py, lines 69-83):
the base `set_data` first (its exceptions propagate), then
`if (not self._generate_siblings or self._data is None): return` — where
`self._data` is the never-assigned attribute, an `AttributeError` when
sibling generation is enabled — then the truncation
`self._siblings = self._siblings[:len(data)]` (no dispose on the dropped
tail) and the reconcile loop; `len(data)` on a non-sequence raises
`TypeError`. -/
def NumbersResource.set_data (st : NumbersState) (data : Val) (now : Nat) :
    NumbersState × Except PyErr Unit :=
  let base2 := (st.base.set_data data now).1
  let st2 : NumbersState := { st with base := base2 }
  match (st.base.set_data data now).2 with
  | .error e => (st2, .error e)
  | .ok _ =>
    if !st._generate_siblings then (st2, .ok ())
    else
      match base2._data with
      | none => (st2, .error .attributeError)
      | some Val.null => (st2, .ok ())
      | some _ =>
        match data with
        | Val.list xs =>
          let truncated := st2._siblings.take xs.length
          let res := numbersReconcile truncated xs 0 now
          ({ st2 with _siblings := res.1 }, res.2)
        | _ => (st2, .error .typeError)

/-- Python `UsbDevicesResource` defines no `set_data` override
(plugins/vision/input/usb_devices/v1/main.py), so `setData` on it is the
inherited `Resource.set_data` on the base state; the sibling list is not
touched. -/
def UsbDevicesResource.set_data (st : UsbDevicesState) (data : Val) (now : Nat) :
    UsbDevicesState × Except PyErr DataItem :=
  let res := st.base.set_data data now
  ({ st with base := res.1 }, res.2)

/-- Python `ImageResource.set_data` (plugins/image/v1/main.py, lines 62-78): the
base `set_data`, then `if self._data is not None and ...` — a read of the
never-assigned `_data` attribute, an `AttributeError` after the base update
(the try/except only wraps the encode-and-upload body, not this condition). -/
def ImageResource.set_data (st : ImageState) (data : Val) (now : Nat) :
    ImageState × Except PyErr Unit :=
  let base2 := (st.base.set_data data now).1
  let st2 : ImageState := { st with base := base2 }
  match (st.base.set_data data now).2 with
  | .error e => (st2, .error e)
  | .ok _ =>
    match base2._data with
    | none => (st2, .error .attributeError)
    | some _ => (st2, .ok ())

/-- The state mutation a `set_data` call performs on each constructed class
(the classes without an override use the inherited `Resource.set_data`).
Python keeps the in-place mutations even when the call raises, so the step
returns the mutated state unconditionally. -/
def AnyResource.set_data_step : AnyResource → Val → Nat → AnyResource
  | .image st, d, now => .image (ImageResource.set_data st d now).1
  | .stringR st, d, now => .stringR { st with base := (st.base.set_data d now).1 }
  | .number st, d, now => .number { st with base := (st.base.set_data d now).1 }
  | .numbers st, d, now => .numbers (NumbersResource.set_data st d now).1
  | .unknown st, d, now => .unknown { st with base := (st.base.set_data d now).1 }
  | .usb_device r, d, now => .usb_device (r.set_data d now).1
  | .usb_devices st, d, now => .usb_devices (UsbDevicesResource.set_data st d now).1

/-- The base `Resource` state inside a constructed class instance. -/
def AnyResource.base : AnyResource → Resource
  | .image st => st.base
  | .stringR st => st.base
  | .number st => st.base
  | .numbers st => st.base
  | .unknown st => st.base
  | .usb_device r => r
  | .usb_devices st => st.base

/-- Constructed-resource states that can exist at runtime: built by some
class constructor (with any context dict) and evolved by `set_data` calls. -/
inductive ReachesAny : AnyResource → Prop
  | ctor (c : ResKind) (ctx : ResourceCtx) (config : RConfig) (now : Nat)
      (a : AnyResource) (h : constructResource c ctx config now = .ok a) :
      ReachesAny a
  | step (a : AnyResource) (d : Val) (now : Nat) (h : ReachesAny a) :
      ReachesAny (a.set_data_step d now)

lemma set_data_fst_attrs (r : Resource) (d : Val) (now : Nat) :
    (r.set_data d now).1._data = r._data ∧
    (r.set_data d now).1._timestamp = r._timestamp := by
  cases hps : r.pool_size with
  | none =>
    rw [set_data_eq_of_none r d now hps, set_data_finish_fst]
    exact ⟨rfl, rfl⟩
  | some ps =>
    by_cases hge : ps ≤ (r.pool.length : Int)
    · cases hp : r.pool with
      | nil =>
        rw [set_data_eq_of_ge_nil r d now ps hps (by rw [hp] at hge; simpa using hge) hp]
        exact ⟨rfl, rfl⟩
      | cons a rest =>
        rw [set_data_eq_of_ge r d now ps a rest hps hge hp, set_data_finish_fst]
        exact ⟨rfl, rfl⟩
    · rw [set_data_eq_of_lt r d now ps hps (by omega), set_data_finish_fst]
      exact ⟨rfl, rfl⟩

lemma image_set_data_fst (st : ImageState) (d : Val) (now : Nat) :
    (ImageResource.set_data st d now).1 =
      { st with base := (st.base.set_data d now).1 } := by
  unfold ImageResource.set_data
  cases h2 : (st.base.set_data d now).2 with
  | error e => rfl
  | ok item =>
    cases hdd : (st.base.set_data d now).1._data with
    | none => simp [hdd]
    | some v => simp [hdd]

lemma numbers_set_data_fst_base (st : NumbersState) (d : Val) (now : Nat) :
    ((NumbersResource.set_data st d now).1).base = (st.base.set_data d now).1 := by
  unfold NumbersResource.set_data
  cases h2 : (st.base.set_data d now).2 with
  | error e => rfl
  | ok item =>
    by_cases hg : st._generate_siblings
    · cases hdd : (st.base.set_data d now).1._data with
      | none => simp [hg, hdd]
      | some v =>
        cases v <;> cases d <;> simp [hg, hdd]
    · simp [hg]

lemma step_base (a : AnyResource) (d : Val) (now : Nat) :
    (a.set_data_step d now).base = (a.base.set_data d now).1 := by
  cases a with
  | image st =>
    show (ImageResource.set_data st d now).1.base = _
    rw [image_set_data_fst]
    rfl
  | stringR st => rfl
  | number st => rfl
  | numbers st =>
    show ((NumbersResource.set_data st d now).1).base = _
    rw [numbers_set_data_fst_base]
    rfl
  | unknown st => rfl
  | usb_device r => rfl
  | usb_devices st => rfl

/-- The legacy `_data` / `_timestamp` instance attributes stay unset on every
constructed-resource state the program can reach. -/
def AttrsUnset (a : AnyResource) : Prop :=
  a.base._data = none ∧ a.base._timestamp = none

lemma reaches_any_attrs (a : AnyResource) (h : ReachesAny a) : AttrsUnset a := by
  induction h with
  | ctor c ctx config now a h =>
    cases c with
    | imageV1 =>
      simp only [constructResource] at h
      unfold ImageResource.init at h
      cases hinit : Resource.init ctx config now with
      | error e =>
        rw [hinit] at h
        simp [Except.map] at h
      | ok b =>
        have hb := (init_inv ctx config now b hinit).2.2.2.1
        rw [hinit] at h
        simp only at h
        rw [hb] at h
        simp [Except.map] at h
    | stringV1 =>
      simp only [constructResource] at h
      unfold StringResource.init at h
      cases hinit : Resource.init ctx config now with
      | error e =>
        rw [hinit] at h
        simp [Except.map] at h
      | ok b =>
        have hinv := init_inv ctx config now b hinit
        rw [hinit] at h
        simp only [Except.map, Except.ok.injEq] at h
        subst h
        exact ⟨hinv.2.2.2.1, hinv.2.2.2.2.1⟩
    | numberV1 =>
      simp only [constructResource] at h
      unfold NumberResource.init at h
      cases hinit : Resource.init ctx config now with
      | error e =>
        rw [hinit] at h
        simp [Except.map] at h
      | ok b =>
        have hinv := init_inv ctx config now b hinit
        rw [hinit] at h
        simp only [Except.map, Except.ok.injEq] at h
        subst h
        exact ⟨hinv.2.2.2.1, hinv.2.2.2.2.1⟩
    | numbersV1 => simp [constructResource] at h
    | unknownV1 =>
      simp only [constructResource] at h
      unfold UnknownResource.init at h
      cases hinit : Resource.init ctx config now with
      | error e =>
        rw [hinit] at h
        simp [Except.map] at h
      | ok b =>
        have hinv := init_inv ctx config now b hinit
        rw [hinit] at h
        simp only [Except.map, Except.ok.injEq] at h
        subst h
        exact ⟨hinv.2.2.2.1, hinv.2.2.2.2.1⟩
    | usbDeviceV1 =>
      simp only [constructResource] at h
      cases hinit : Resource.init ctx config now with
      | error e =>
        rw [hinit] at h
        simp [Except.map] at h
      | ok b =>
        have hinv := init_inv ctx config now b hinit
        rw [hinit] at h
        simp only [Except.map, Except.ok.injEq] at h
        subst h
        exact ⟨hinv.2.2.2.1, hinv.2.2.2.2.1⟩
    | usbDevicesV1 =>
      simp only [constructResource] at h
      unfold UsbDevicesResource.init at h
      cases hinit : Resource.init ctx config now with
      | error e =>
        rw [hinit] at h
        simp [Except.map] at h
      | ok b =>
        have hb := (init_inv ctx config now b hinit).2.2.2.1
        rw [hinit] at h
        simp only at h
        rw [hb] at h
        simp [Except.map] at h
  | step a d now _ ih =>
    obtain ⟨hd, ht⟩ := ih
    refine ⟨?_, ?_⟩
    · rw [step_base, (set_data_fst_attrs a.base d now).1]
      exact hd
    · rw [step_base, (set_data_fst_attrs a.base d now).2]
      exact ht

/-- A string-valued field. -/
def isStrRV : Option RVal → Bool
  | some (.s _) => true
  | _ => false

/-- A string-list-valued field. -/
def isStrListRV : Option RVal → Bool
  | some (.slist _) => true
  | _ => false

/-- An integer-valued field. -/
def isNatRV : Option RVal → Bool
  | some (.n _) => true
  | _ => false

/-- The minimum record shape claimed by the spec:
`{key: string, schema: string, name: string, scopes: string[], version: int,
timestamp: string, data: present}`. -/
def hasMinFields (rec : Record) : Bool :=
  isStrRV (rec.lookup "key") && isStrRV (rec.lookup "schema") &&
  isStrRV (rec.lookup "name") && isStrListRV (rec.lookup "scopes") &&
  isNatRV (rec.lookup "version") && isStrRV (rec.lookup "timestamp") &&
  (rec.lookup "data").isSome

/-- Claim C7: every record of a successful `serialize()` on a reachable
resource of any kind carries at minimum key, schema, name, scopes, version,
timestamp, and data.  (On the current code, only
`vision.input.usb_device.v1`'s serialize can succeed — every other kind's
serialize reads the never-assigned `_timestamp`/`_data` attributes and
raises `AttributeError`, or `ValueError` for a function-less `unknown.v1` —
and the usb_device record does carry all seven fields.) -/
theorem serialize_record_min_fields (a : AnyResource) (h : ReachesAny a)
    (recs : List Record) (rec : Record)
    (hs : a.serialize = Except.ok recs) (hmem : rec ∈ recs) :
    hasMinFields rec = true := by
  obtain ⟨hd, ht⟩ := reaches_any_attrs a h
  cases a with
  | image st =>
    have ht2 : st.base._timestamp = none := ht
    simp only [AnyResource.serialize] at hs
    unfold ImageResource.serialize at hs
    rw [ht2] at hs
    simp at hs
  | stringR st =>
    have ht2 : st.base._timestamp = none := ht
    simp only [AnyResource.serialize] at hs
    unfold StringResource.serialize at hs
    rw [ht2] at hs
    simp at hs
  | number st =>
    have ht2 : st.base._timestamp = none := ht
    simp only [AnyResource.serialize] at hs
    unfold NumberResource.serialize at hs
    rw [ht2] at hs
    simp at hs
  | numbers st =>
    have hd2 : st.base._data = none := hd
    simp only [AnyResource.serialize] at hs
    unfold NumbersResource.serialize at hs
    rw [hd2] at hs
    simp at hs
  | unknown st =>
    have ht2 : st.base._timestamp = none := ht
    simp only [AnyResource.serialize] at hs
    unfold UnknownResource.serialize at hs
    by_cases hfn : st._serialize_fn
    · rw [if_neg (by simp [hfn])] at hs
      rw [ht2] at hs
      simp at hs
    · rw [if_pos (by simp [hfn])] at hs
      simp at hs
  | usb_devices st =>
    have ht2 : st.base._timestamp = none := ht
    simp only [AnyResource.serialize] at hs
    unfold UsbDevicesResource.serialize at hs
    rw [ht2] at hs
    simp at hs
  | usb_device r =>
    simp only [AnyResource.serialize] at hs
    unfold UsbDeviceResource.serialize at hs
    cases hgi : r.get_item none with
    | error e =>
      rw [hgi] at hs
      simp at hs
    | ok oi =>
      cases oi with
      | none =>
        rw [hgi] at hs
        simp only at hs
        simp only [Except.ok.injEq] at hs
        subst hs
        simp at hmem
      | some item =>
        rw [hgi] at hs
        simp only at hs
        simp only [Except.ok.injEq] at hs
        subst hs
        simp only [List.mem_singleton] at hmem
        subst hmem
        rfl

/-- The single record `UsbDeviceResource.serialize` emits on `rW`. -/
def usbRecW : Record :=
  [("key", .s "node_a.image"), ("schema", .s "vision.input.usb_device.v1"),
   ("name", .s "image"), ("scopes", .slist ["node_a"]), ("version", .n 1),
   ("timestamp", .s (isoformat 0)), ("data", .v Val.null)]

theorem serialize_record_min_fields_witness :
    ReachesAny (AnyResource.usb_device rW) ∧
    (AnyResource.usb_device rW).serialize = Except.ok [usbRecW] ∧
    hasMinFields usbRecW = true := by
  have hr : ReachesAny (AnyResource.usb_device rW) :=
    ReachesAny.ctor .usbDeviceV1 ctxW cfgW 0 (AnyResource.usb_device rW) rfl
  exact ⟨hr, rfl,
    serialize_record_min_fields (AnyResource.usb_device rW) hr [usbRecW] usbRecW rfl
      (List.Mem.head _)⟩

lemma set_data_snd_ok_of (r : Resource) (d : Val) (now : Nat)
    (hem : r.ctx.has_event_emitter = true) (hne : r.pool ≠ []) :
    (r.set_data d now).2 = Except.ok ⟨d, r.version + 1, now⟩ := by
  cases hps : r.pool_size with
  | none =>
    rw [set_data_eq_of_none r d now hps]
    rw [set_data_finish_snd_ok _ _ _ (by simpa using hem)]
  | some ps =>
    by_cases hge : ps ≤ (r.pool.length : Int)
    · rcases List.exists_cons_of_ne_nil hne with ⟨a, rest, hp⟩
      rw [set_data_eq_of_ge r d now ps a rest hps hge hp]
      rw [set_data_finish_snd_ok _ _ _ (by simpa using hem)]
    · rw [set_data_eq_of_lt r d now ps hps (by omega)]
      rw [set_data_finish_snd_ok _ _ _ (by simpa using hem)]

/-- A concrete `UsbDeviceResource` sibling state, one per device id. -/
def sibW (i : Int) : Resource :=
  { ctx := ctxW, name := "usb_device_" ++ toString i,
    scopes := ["cam", "usb_devices"],
    key := "cam.usb_devices.usb_device_" ++ toString i,
    pool := [⟨Val.int i, 1, 0⟩], pool_size := some 5, version := 1 }

/-- A `vision.input.usb_devices.v1` collection state whose three siblings
correspond to device ids 0, 1, 2 — the configuration of the spec's
collection-reconciliation scenario. -/
def usbDevicesCE : UsbDevicesState :=
  { base :=
      { ctx := ctxW, name := "usb_devices", scopes := ["cam"],
        key := "cam.usb_devices",
        pool := [⟨Val.list [Val.int 0, Val.int 1, Val.int 2], 1, 0⟩],
        pool_size := some 5, version := 1 },
    _siblings := [sibW 0, sibW 1, sibW 2] }

/-- Claim C8 is false on the code: a usb_devices collection holding 3
siblings still holds 3 siblings after `setData([0, 1])` — not the claimed
`len(xs) = 2` with the third dropped and disposed — because
`UsbDevicesResource` never overrides `set_data`. -/
theorem usb_devices_set_data_no_reconcile :
    ((UsbDevicesResource.set_data usbDevicesCE
      (Val.list [Val.int 0, Val.int 1]) 1).1)._siblings.length = 3 ∧
    (3 : Nat) ≠ 2 := by
  exact ⟨rfl, by omega⟩

/-- Claim C8 amended: neither collection kind reconciles its siblings on
`setData` in the current code.  `vision.input.usb_devices.v1` does not
override `set_data`, so the call leaves the sibling list unchanged (first
conjunct); `numbers.v1` with sibling generation enabled performs the base
update and then raises `AttributeError` reading the never-assigned `_data`
attribute, before touching the sibling list (second conjunct); with
generation disabled it returns after the base update, siblings unchanged
(third conjunct). -/
theorem collection_set_data_amended :
    (∀ (st : UsbDevicesState) (d : Val) (now : Nat),
      ((UsbDevicesResource.set_data st d now).1)._siblings = st._siblings) ∧
    (∀ (st : NumbersState) (d : Val) (now : Nat),
      st.base._data = none → st._generate_siblings = true →
      st.base.ctx.has_event_emitter = true → st.base.pool ≠ [] →
      (NumbersResource.set_data st d now).2 = Except.error PyErr.attributeError ∧
      ((NumbersResource.set_data st d now).1)._siblings = st._siblings) ∧
    (∀ (st : NumbersState) (d : Val) (now : Nat), st._generate_siblings = false →
      ((NumbersResource.set_data st d now).1)._siblings = st._siblings) := by
  refine ⟨?_, ?_, ?_⟩
  · intro st d now
    rfl
  · intro st d now hd hg hem hne
    have hok := set_data_snd_ok_of st.base d now hem hne
    have hbd : (st.base.set_data d now).1._data = none := by
      rw [(set_data_fst_attrs st.base d now).1]
      exact hd
    have heq : NumbersResource.set_data st d now =
        ({ st with base := (st.base.set_data d now).1 },
          Except.error PyErr.attributeError) := by
      unfold NumbersResource.set_data
      rw [hok]
      simp [hg, hbd]
    rw [heq]
    exact ⟨rfl, rfl⟩
  · intro st d now hg
    unfold NumbersResource.set_data
    cases h2 : (st.base.set_data d now).2 with
    | error e => rfl
    | ok item => simp [hg]

theorem collection_set_data_amended_witness :
    ((UsbDevicesResource.set_data usbDevicesCE Val.null 3).1)._siblings =
      usbDevicesCE._siblings ∧
    (NumbersResource.set_data ⟨rW, true, []⟩ (Val.list [Val.int 0]) 2).2 =
      Except.error PyErr.attributeError := by
  constructor
  · exact collection_set_data_amended.1 usbDevicesCE Val.null 3
  · exact (collection_set_data_amended.2.1 ⟨rW, true, []⟩ (Val.list [Val.int 0]) 2
      rfl rfl rfl (by simp [rW])).1

end EdgeOrch
